import Mathlib

/-!
# TCP text service: server (`server.c`) and client (`client.c`)

A shallow embedding of the two programs.  Bytes are natural numbers, a buffer
is a list of bytes, a C `int` is an `Int`.  Every system call whose result the
code inspects is a point where the environment supplies an `Outcome`; the
calls the program makes are recorded, in order, as a trace.
-/

namespace EchoService

/-! ## Shared constants and C-string helpers -/

/-- Normal termination (`#define EX_OK 0`). -/
def EX_OK : Nat := 0
/-- Incorrect arguments (`#define EX_ARGFALL 1`). -/
def EX_ARGFALL : Nat := 1
/-- Error in system call (`#define EX_SYSERR 2`). -/
def EX_SYSERR : Nat := 2
/-- Cannot allocate memory (`#define EX_NOMEM 3`, server only). -/
def EX_NOMEM : Nat := 3
/-- Buffer size and count of every `read` and `write` (`#define MAXLEN 255`). -/
def MAXLEN : Nat := 255

/-- The bytes of a string literal, without the terminating NUL. -/
def bytesOf (s : String) : List Nat := s.toList.map Char.toNat

/-- The C string that starts at the beginning of a buffer: the bytes before
the first NUL. -/
def cstr (buf : List Nat) : List Nat := buf.takeWhile (fun b => b != 0)

/-- Result of one system call: its return value and, for a `read`, the bytes
the kernel delivers. -/
structure Outcome where
  ret : Int
  data : List Nat
deriving DecidableEq, Repr

/-- Effect of `memset(buf, 0, MAXLEN)` on a `char buf[MAXLEN]`. -/
def zeroBuf : List Nat := List.replicate MAXLEN 0

/-- Effect of a `read` that returned `n > 0` on the buffer it was given: the
first `n` bytes are replaced by the delivered data, the rest is kept. -/
def readInto (buf data : List Nat) (n : Nat) : List Nat :=
  (data ++ List.replicate n 0).take n ++ buf.drop n

/-- Effect of `sprintf(buf, s)` for a text `s` without conversions left to
expand: the text, its terminating NUL, and the untouched rest of `buf`. -/
def sprintf (buf s : List Nat) : List Nat :=
  s ++ 0 :: buf.drop (s.length + 1)

/-- Conversion `%d` of a C `int`. -/
def fmtInt (i : Int) : List Nat :=
  if i < 0 then 45 :: (Nat.toDigits 10 i.natAbs).map Char.toNat
  else (Nat.toDigits 10 i.toNat).map Char.toNat

/-! ## Server: `runServer` -/

/-- Messages passed to `Log` in `runServer`. -/
inductive Msg where
  /-- Text `getnameinfo: %s`. -/
  | getnameinfoErr
  /-- Text `accept connection n. %d: ...`, with the connection number. -/
  | accepted (n : Int)
  /-- Text `read: error read buffer` (logged for failed reads and writes alike). -/
  | readErr
  /-- Text `client: %s`, with the string at the start of `recvb`: its bytes
  before the first NUL (the model stops at the end of the buffer when it holds
  no NUL). -/
  | client (text : List Nat)
  /-- Text `client closed connection`. -/
  | clientClosed
  /-- Text `%s, fork error`. -/
  | forkErr
deriving DecidableEq, Repr

/-- Calls made by a process executing `runServer`, as they appear in its trace. -/
inductive Act where
  /-- Call `accept(srv->sock, ...)`. -/
  | accept
  /-- Call `fork()`. -/
  | fork
  /-- Call `close(srv->sock)`. -/
  | closeListen
  /-- Call `close(s)`. -/
  | closeConn (s : Int)
  /-- Call `getnameinfo(sap, ...)`. -/
  | getnameinfo
  /-- Call `shutdown(s, SHUT_RDWR)`. -/
  | shutdown (s : Int)
  /-- Call `read(s, recvb, MAXLEN)`. -/
  | read (s : Int)
  /-- Call `write(s, sendb, MAXLEN)`, with the content of `sendb`. -/
  | write (s : Int) (sendb : List Nat)
  /-- Call `Log(srv, ...)`. -/
  | log (m : Msg)
deriving DecidableEq, Repr

/-- Program points of `runServer` at which the process waits for a system
call to return, and the point after its return. -/
inductive Loc where
  /-- In `accept`, line 203. -/
  | accept
  /-- In `fork`, line 208. -/
  | fork
  /-- In `getnameinfo`, line 219. -/
  | getnameinfo
  /-- In the `read` of the first loop, line 228. -/
  | read1
  /-- In the `write` of the `byter < 16` branch, line 236. -/
  | writeOk
  /-- In the `write` of the `else` branch, line 243. -/
  | writeNoname
  /-- In the `read` of the second loop, line 253. -/
  | read2
  /-- In the `write` of the second loop, line 261. -/
  | write2
  /-- After the `break` of line 270: `runServer` has returned and `main`
  returns `EX_OK`. -/
  | returned
deriving DecidableEq, Repr

/-- Local variables of `runServer`. -/
structure Srv where
  loc : Loc
  counter : Int
  s : Int
  sendb : List Nat
  recvb : List Nat
  byter : Int
  bytes : Int
deriving DecidableEq, Repr

/-- Start of an iteration of the outer `while(1)`: both buffers are cleared
and the process calls `accept`. -/
def toAccept (st : Srv) : Srv :=
  { st with loc := Loc.accept, sendb := zeroBuf, recvb := zeroBuf }

/-- Return of `accept` (line 203). -/
def onAccept (st : Srv) (o : Outcome) : Srv × List Act :=
  if o.ret ≥ 0 then
    ({ st with loc := Loc.fork, s := o.ret, counter := st.counter + 1 }, [Act.fork])
  else
    (toAccept { st with s := o.ret }, [Act.accept])

/-- Return of `fork` (lines 208-223 and 275-279). -/
def onFork (st : Srv) (o : Outcome) : Srv × List Act :=
  if o.ret = 0 then
    ({ st with loc := Loc.getnameinfo }, [Act.closeListen, Act.getnameinfo])
  else if o.ret > 0 then
    (toAccept st, [Act.closeConn st.s, Act.accept])
  else
    (toAccept st, [Act.log Msg.forkErr, Act.accept])

/-- Return of `getnameinfo` in the child (lines 219-228). -/
def onGetnameinfo (st : Srv) (o : Outcome) : Srv × List Act :=
  if o.ret ≠ 0 then
    (toAccept st, [Act.log Msg.getnameinfoErr, Act.shutdown st.s, Act.accept])
  else
    ({ st with loc := Loc.read1 }, [Act.log (Msg.accepted st.counter), Act.read st.s])

/-- Return of the `read` of the first loop (lines 228-243). -/
def onRead1 (st : Srv) (o : Outcome) : Srv × List Act :=
  if o.ret ≤ 0 then
    ({ st with loc := Loc.read2, byter := o.ret }, [Act.log Msg.readErr, Act.read st.s])
  else
    let recvb := readInto st.recvb o.data o.ret.toNat
    if o.ret < 16 then
      let sendb := sprintf st.sendb (bytesOf "ok")
      ({ st with loc := Loc.writeOk, byter := o.ret, recvb := recvb, sendb := sendb },
        [Act.log (Msg.client (cstr recvb)), Act.write st.s sendb])
    else
      let sendb := sprintf st.sendb (bytesOf "noname")
      ({ st with loc := Loc.writeNoname, byter := o.ret, recvb := recvb, sendb := sendb },
        [Act.log (Msg.client (cstr recvb)), Act.write st.s sendb])

/-- Return of the `write` of the `byter < 16` branch (lines 236-240). -/
def onWriteOk (st : Srv) (o : Outcome) : Srv × List Act :=
  if o.ret ≤ 0 then
    ({ st with loc := Loc.read2, bytes := o.ret },
      [Act.log Msg.readErr, Act.shutdown st.s, Act.read st.s])
  else
    ({ st with loc := Loc.read1, bytes := o.ret }, [Act.read st.s])

/-- Return of the `write` of the `else` branch (lines 243-247). -/
def onWriteNoname (st : Srv) (o : Outcome) : Srv × List Act :=
  if o.ret ≤ 0 then
    ({ st with loc := Loc.read1, bytes := o.ret },
      [Act.log Msg.readErr, Act.shutdown st.s, Act.read st.s])
  else
    ({ st with loc := Loc.read1, bytes := o.ret }, [Act.read st.s])

/-- Text produced by `"recived: %d bytes: %s"` for `byter` and `recvb`. -/
def fmtRecived (byter : Int) (recvb : List Nat) : List Nat :=
  bytesOf "recived: " ++ fmtInt byter ++ bytesOf " bytes: " ++ cstr recvb

/-- Return of the `read` of the second loop (lines 253-261).  There is no
length check: `sprintf` formats the text into `sendb` and `write` sends the
`MAXLEN` bytes of `sendb`, which are the first `MAXLEN` bytes of what
`sprintf` produced; what it writes beyond them lies outside the buffer and is
not part of the state. -/
def onRead2 (st : Srv) (o : Outcome) : Srv × List Act :=
  if o.ret ≤ 0 then
    ({ st with loc := Loc.returned, byter := o.ret },
      [Act.log Msg.readErr, Act.log Msg.clientClosed])
  else
    let recvb := readInto st.recvb o.data o.ret.toNat
    let sendb := (sprintf st.sendb (fmtRecived o.ret recvb)).take MAXLEN
    ({ st with loc := Loc.write2, byter := o.ret, recvb := recvb, sendb := sendb },
      [Act.log (Msg.client (cstr recvb)), Act.write st.s sendb])

/-- Return of the `write` of the second loop (lines 261-265). -/
def onWrite2 (st : Srv) (o : Outcome) : Srv × List Act :=
  if o.ret ≤ 0 then
    ({ st with loc := Loc.read2, bytes := o.ret },
      [Act.log Msg.readErr, Act.shutdown st.s, Act.read st.s])
  else
    ({ st with loc := Loc.read2, bytes := o.ret }, [Act.read st.s])

/-- One transition of `runServer`: the pending system call returns `o`, and
the process runs up to its next system call (or stops).  The second component
lists the calls made on the way, the next pending call last. -/
def step (st : Srv) (o : Outcome) : Srv × List Act :=
  match st.loc with
  | Loc.accept => onAccept st o
  | Loc.fork => onFork st o
  | Loc.getnameinfo => onGetnameinfo st o
  | Loc.read1 => onRead1 st o
  | Loc.writeOk => onWriteOk st o
  | Loc.writeNoname => onWriteNoname st o
  | Loc.read2 => onRead2 st o
  | Loc.write2 => onWrite2 st o
  | Loc.returned => (st, [])

/-- Execution from `st` against the successive system-call results `outs`:
the state reached and every call made.  A process that has returned consumes
no further result. -/
def run (st : Srv) : List Outcome → Srv × List Act
  | [] => (st, [])
  | o :: outs =>
    if st.loc = Loc.returned then (st, [])
    else
      let r := step st o
      let r2 := run r.1 outs
      (r2.1, r.2 ++ r2.2)

/-- Entry of `runServer`: `counter = 0`, cleared buffers, first `accept`
pending. -/
def serverInit : Srv :=
  { loc := Loc.accept, counter := 0, s := 0, sendb := zeroBuf, recvb := zeroBuf,
    byter := 0, bytes := 0 }

/-- Trace of a process that enters `runServer` and receives the results
`outs` from its system calls. -/
def runServer (outs : List Outcome) : Srv × List Act :=
  let r := run serverInit outs
  (r.1, Act.accept :: r.2)

/-- State of a Connection Handler when it enters the first loop for the
accepted socket `s` as connection number `counter`, its first `read` pending. -/
def handlerInit (s counter : Int) : Srv :=
  { loc := Loc.read1, counter := counter, s := s, sendb := zeroBuf, recvb := zeroBuf,
    byter := 0, bytes := 0 }

/-- Trace of a Connection Handler from the first `read` of the first loop. -/
def runHandler (s counter : Int) (outs : List Outcome) : Srv × List Act :=
  let r := run (handlerInit s counter) outs
  (r.1, Act.read s :: r.2)

/-- Payloads of the `write` calls of a trace, as C strings. -/
def replies : List Act → List (List Nat)
  | [] => []
  | Act.write _ b :: rest => cstr b :: replies rest
  | _ :: rest => replies rest

/-- Number of `read` calls in a trace. -/
def readCount (t : List Act) : Nat :=
  (t.filter (fun a => match a with | Act.read _ => true | _ => false)).length

/-- Whether a trace contains a `shutdown` call. -/
def hasShutdown (t : List Act) : Bool :=
  t.any (fun a => match a with | Act.shutdown _ => true | _ => false)

/-- Number of `accept` calls in a trace. -/
def acceptCount (t : List Act) : Nat :=
  (t.filter (fun a => match a with | Act.accept => true | _ => false)).length

/-- Shape a reply written by a handler can have: one of the two tokens of the
first loop, or a text of the second loop. -/
def ReplyShape (r : List Nat) : Prop :=
  r = bytesOf "ok" ∨ r = bytesOf "noname" ∨ bytesOf "recived: " <+: r

/-! ## Server: `initServer` -/

/-- Address family constant `AF_INET` (value on Linux). -/
def AF_INET : Nat := 2
/-- Address family constant `AF_INET6` (value on Linux). -/
def AF_INET6 : Nat := 10
/-- Error number `EAFNOSUPPORT` (value on Linux). -/
def EAFNOSUPPORT : Nat := 97

/-- Conversion of the `long` returned by `strtol` to the `int` field
`port_number` (two's complement, 32 bits). -/
def toInt32 (v : Int) : Int := (v + 2 ^ 31) % 2 ^ 32 - 2 ^ 31

/-- Library function `htons`: the argument is converted to 16 bits; on a
little-endian host (`le = true`) its two bytes are exchanged, on a big-endian
host it is returned as it is. -/
def htons (le : Bool) (x : Int) : Nat :=
  let u := (x % 65536).toNat
  if le then (u % 256) * 256 + u / 256 else u

/-- Port number denoted on the wire by a 16-bit value held in network byte
order (library function `ntohs`). -/
def ntohs (le : Bool) (p : Nat) : Nat :=
  let u := p % 65536
  if le then (u % 256) * 256 + u / 256 else u

/-- Results of the library and system calls made by `initServer`. -/
structure InitEnv where
  /-- Whether `calloc` in `newServer` returns memory. -/
  callocOk : Bool
  /-- Field `p_proto` of `getprotobyname("tcp")`, or `none` for `NULL`. -/
  proto : Option Int
  /-- Value returned by `strtol(port_name, &ep, 0)`. -/
  strtolVal : Int
  /-- Whether `*ep == 0` after `strtol`: the whole string was consumed. -/
  epNul : Bool
  /-- Field `s_port` of `getservbyname(port_name, "tcp")`, or `none` for `NULL`. -/
  serv : Option Int
  /-- Whether the host is little-endian. -/
  le : Bool
  /-- Return of `socket(AF_INET6, ...)`. -/
  sock6 : Int
  /-- Value of `errno` after `socket(AF_INET6, ...)` failed. -/
  errno6 : Nat
  /-- Return of `socket(AF_INET, ...)`. -/
  sock4 : Int
  /-- Return of `setsockopt`. -/
  setsockopt : Int
  /-- Return of `bind`. -/
  bind : Int
  /-- Return of `listen`. -/
  listen : Int
deriving DecidableEq, Repr

/-- Calls and messages of `initServer`. -/
inductive IAct where
  /-- Call `socket(family, SOCK_STREAM, p_proto)`. -/
  | socket (family : Nat)
  /-- Call `setsockopt(sock, IPPROTO_IPV6, IPV6_V6ONLY, ...)`. -/
  | setsockopt (sock : Int)
  /-- Call `bind(sock, &sa, ...)` with the family and the 16-bit port field of `sa`. -/
  | bind (sock : Int) (family : Nat) (port : Nat)
  /-- Call `listen(sock, SOMAXCONN)`. -/
  | listen (sock : Int)
  /-- Message of a `Fatal` call, by the name of the failing operation. -/
  | fatal (what : String)
deriving DecidableEq, Repr

/-- Fields of the server structure set by `initServer`. -/
structure ServerRec where
  sock : Int
  port_number : Int
deriving DecidableEq, Repr

/-- Lines 133-139: the port is the number `strtol` read when that is positive
and the whole string was consumed, else the port of the service of that name. -/
def resolvePort (e : InitEnv) : Except Nat Int :=
  let pn := toInt32 e.strtolVal
  if pn > 0 ∧ e.epNul = true then
    Except.ok (Int.ofNat (htons e.le pn))
  else
    match e.serv with
    | none => Except.error EX_ARGFALL
    | some p => Except.ok p

/-- Lines 169-179: `bind` and `listen` on the socket obtained. -/
def bindListen (e : InitEnv) (pre : List IAct) (sock : Int) (port : Int)
    (family : Nat) (saPort : Nat) : List IAct × Except Nat ServerRec :=
  if e.bind < 0 then
    (pre ++ [IAct.bind sock family saPort, IAct.fatal "bind"], Except.error EX_SYSERR)
  else if e.listen < 0 then
    (pre ++ [IAct.bind sock family saPort, IAct.listen sock, IAct.fatal "listen"],
      Except.error EX_SYSERR)
  else
    (pre ++ [IAct.bind sock family saPort, IAct.listen sock],
      Except.ok { sock := sock, port_number := port })

/-- Function `initServer`: the calls it makes and either the exit code of the
process or the initialised server.  The port field of the socket address is
`port_number` converted to 16 bits; the address stays zeroed when no branch
fills it. -/
def initServer (e : InitEnv) : List IAct × Except Nat ServerRec :=
  if e.callocOk = false then ([], Except.error EX_NOMEM)
  else if e.proto = none then ([IAct.fatal "getprotobyname"], Except.error EX_ARGFALL)
  else
    match resolvePort e with
    | Except.error c => ([IAct.fatal "bad port"], Except.error c)
    | Except.ok port =>
      let saPort := (port % 65536).toNat
      if e.sock6 < 0 then
        if e.errno6 = EAFNOSUPPORT then
          if e.sock4 < 0 then
            ([IAct.socket AF_INET6, IAct.socket AF_INET, IAct.fatal "socket"],
              Except.error EX_SYSERR)
          else
            bindListen e [IAct.socket AF_INET6, IAct.socket AF_INET] e.sock4 port AF_INET saPort
        else
          bindListen e [IAct.socket AF_INET6] e.sock6 port 0 0
      else if e.setsockopt < 0 then
        ([IAct.socket AF_INET6, IAct.setsockopt e.sock6, IAct.fatal "setsockopt"],
          Except.error EX_SYSERR)
      else
        bindListen e [IAct.socket AF_INET6, IAct.setsockopt e.sock6] e.sock6 port AF_INET6 saPort

/-- Ports given to `bind` in a trace of `initServer`, as port numbers. -/
def boundPorts (le : Bool) : List IAct → List Nat
  | [] => []
  | IAct.bind _ _ p :: rest => ntohs le p :: boundPorts le rest
  | _ :: rest => boundPorts le rest

/-! ## Client -/

/-- Messages the client logs or prints. -/
inductive CMsg where
  /-- Text `Usage: %s [-p port] host`. -/
  | usage
  /-- Text `%s: too many command line args`. -/
  | tooMany
  /-- Text `%s: missing host arg`. -/
  | missingHost
  /-- Text `%s: getaddrinfo: %s` of the `Fatal` call. -/
  | getaddrinfoErr
  /-- Text `%s: getnameinfo: %s`. -/
  | getnameinfoErr
  /-- Text `Tryng %s ...`. -/
  | trying
  /-- Text `socket: no IPv6 support on this host`. -/
  | noIPv6
  /-- Text `socket: %s`. -/
  | socketErr
  /-- Text `connect: %s`. -/
  | connectErr
  /-- Text `connected to %s`. -/
  | connected
  /-- Text `%s: could not connect to host %s` of the `Fatal` call. -/
  | couldNotConnect
  /-- Text `Welcome to %s: period newline exits`. -/
  | welcome
  /-- Text `%s: write: write buffer error`. -/
  | writeErr
  /-- Text `%s: read: read buffer error`. -/
  | readErr
  /-- Text `response: %s`, with the string at the start of `recvb`: its bytes
  before the first NUL (the model stops at the end of the buffer when it holds
  no NUL). -/
  | response (text : List Nat)
  /-- Text `%s: shutdown error: %s`. -/
  | shutdownErr
  /-- Text `client connection closed`. -/
  | closed
deriving DecidableEq, Repr

/-- Calls made by the client, as they appear in its trace. -/
inductive CAct where
  /-- Call `getnameinfo` for the candidate address `addr`. -/
  | getnameinfo (addr : Nat)
  /-- Call `socket` for the candidate address `addr`. -/
  | socket (addr : Nat)
  /-- Call `connect(sock, ...)` to the candidate address `addr`. -/
  | connect (sock : Int) (addr : Nat)
  /-- Call `shutdown(sock, SHUT_RDWR)`. -/
  | shutdown (sock : Int)
  /-- Call `getLine("> ")`. -/
  | getLine
  /-- Call `write(sock, sendb, count)`, with the line `sendb` points to. -/
  | write (sock : Int) (sendb : List Nat) (count : Nat)
  /-- Call `free(sendb)`. -/
  | free
  /-- Call `read(sock, recvb, count)`. -/
  | read (sock : Int) (count : Nat)
  /-- A message logged or printed. -/
  | msg (m : CMsg)
deriving DecidableEq, Repr

/-- One candidate of the list `getaddrinfo` returned, with the results of the
calls `initClient` makes for it. -/
structure Cand where
  /-- Identifies the address in the trace. -/
  addr : Nat
  /-- Field `ai_family`. -/
  family : Nat
  /-- Return of `getnameinfo`. -/
  nameinfo : Int
  /-- Return of `socket`. -/
  sock : Int
  /-- Value of `errno` after `socket` failed. -/
  errno : Nat
  /-- Return of `connect`. -/
  conn : Int
deriving DecidableEq, Repr

/-- Lines 129-134: the numeric host name is logged or the failure is. -/
def candIntro (c : Cand) : List CAct :=
  [CAct.getnameinfo c.addr,
   if c.nameinfo ≠ 0 then CAct.msg CMsg.getnameinfoErr else CAct.msg CMsg.trying,
   CAct.socket c.addr]

/-- Lines 146-155 for the candidate `c`: `connect` on the descriptor `socket`
returned; `rest` is the outcome of the remaining candidates. -/
def connectCand (c : Cand) (pre : List CAct) (rest : List CAct × Except Nat Int) :
    List CAct × Except Nat Int :=
  if c.conn < 0 then
    (pre ++ [CAct.connect c.sock c.addr, CAct.msg CMsg.connectErr, CAct.shutdown c.sock]
      ++ rest.1, rest.2)
  else
    (pre ++ [CAct.connect c.sock c.addr, CAct.msg CMsg.connected], Except.ok c.sock)

/-- The `for` loop of `initClient` (lines 124-156) followed by the `Fatal`
call of line 158. -/
def tryCands : List Cand → List CAct × Except Nat Int
  | [] => ([CAct.msg CMsg.couldNotConnect], Except.error EX_ARGFALL)
  | c :: cs =>
    if c.sock < 0 then
      if c.family = AF_INET6 ∧ c.errno = EAFNOSUPPORT then
        connectCand c (candIntro c ++ [CAct.msg CMsg.noIPv6]) (tryCands cs)
      else
        (candIntro c ++ [CAct.msg CMsg.socketErr] ++ (tryCands cs).1, (tryCands cs).2)
    else
      connectCand c (candIntro c) (tryCands cs)

/-- Function `initClient`: `gai` is the return of `getaddrinfo`, `cands` the
list it produced. -/
def initClient (gai : Int) (cands : List Cand) : List CAct × Except Nat Int :=
  if gai ≠ 0 then ([CAct.msg CMsg.getaddrinfoErr], Except.error EX_SYSERR)
  else tryCands cands

/-- Whether `strcmp(sendb, ".") != 0`. -/
def notDot (line : List Nat) : Bool := cstr line != bytesOf "."

/-- The `while` loop of `runClient` (lines 173-187).  The list holds the lines
`getLine` returns, its end standing for `NULL`; `io k` is the result of the
`k`-th `write` or `read` of the session; `recvb` is the receive buffer. -/
def clientLoop (sock : Int) (io : Nat → Outcome) :
    List (List Nat) → Nat → List Nat → List CAct
  | [], _, _ => [CAct.getLine]
  | l :: ls, k, recvb =>
    if notDot l then
      if (io k).ret ≤ 0 then
        [CAct.getLine, CAct.write sock l MAXLEN, CAct.msg CMsg.writeErr]
      else if (io (k + 1)).ret ≤ 0 then
        [CAct.getLine, CAct.write sock l MAXLEN, CAct.free, CAct.read sock 255,
          CAct.msg CMsg.readErr]
      else
        let recvb2 := readInto recvb (io (k + 1)).data (io (k + 1)).ret.toNat
        [CAct.getLine, CAct.write sock l MAXLEN, CAct.free, CAct.read sock 255,
          CAct.msg (CMsg.response (cstr recvb2))] ++ clientLoop sock io ls (k + 2) recvb2
    else [CAct.getLine]

/-- Function `runClient`. -/
def runClient (sock : Int) (lines : List (List Nat)) (io : Nat → Outcome) : List CAct :=
  CAct.msg CMsg.welcome :: clientLoop sock io lines 0 zeroBuf

/-- Function `doneClient`; `sd` is the return of `shutdown`. -/
def doneClient (sock : Int) (sd : Int) : List CAct :=
  if sock ≥ 0 then
    [CAct.shutdown sock] ++ (if sd ≠ 0 then [CAct.msg CMsg.shutdownErr] else [])
      ++ [CAct.msg CMsg.closed]
  else []

/-- The option loop of `main` (lines 219-224) over the successive returns of
`getopt` with their `optarg`: the port chosen, or `none` when `Usage` was
called. -/
def parseOpts (port : List Nat) : List (Char × List Nat) → Option (List Nat)
  | [] => some port
  | (c, optarg) :: rest => if c = 'p' then parseOpts optarg rest else none

/-- Environment of a run of the client after its command line was read. -/
structure ClientEnv where
  /-- Return of `getaddrinfo`. -/
  gai : Int
  /-- Candidate addresses of the host. -/
  cands : List Cand
  /-- Lines the operator enters. -/
  lines : List (List Nat)
  /-- Results of the session's `write` and `read` calls. -/
  io : Nat → Outcome
  /-- Return of `shutdown` in `doneClient`. -/
  sd : Int

/-- Function `main` of the client: `opts` are the successive returns of
`getopt`, `args` the arguments `argv[optind..argc-1]` left after it.  The
result is the trace and the exit code.  `Usage` prints and calls
`exit(EX_OK)`. -/
def clientMain (opts : List (Char × List Nat)) (args : List (List Nat)) (e : ClientEnv) :
    List CAct × Nat :=
  match parseOpts (bytesOf "9000") opts with
  | none => ([CAct.msg CMsg.usage], EX_OK)
  | some _ =>
    match args with
    | [] => ([CAct.msg CMsg.missingHost, CAct.msg CMsg.usage], EX_OK)
    | _ :: _ :: _ => ([CAct.msg CMsg.tooMany, CAct.msg CMsg.usage], EX_OK)
    | [_] =>
      match initClient e.gai e.cands with
      | (t, Except.error c) => (t, c)
      | (t, Except.ok sock) =>
        (t ++ runClient sock e.lines e.io ++ doneClient sock e.sd, EX_OK)

/-- Buffers the session's `write` calls were given, in order. -/
def sentLines : List CAct → List (List Nat)
  | [] => []
  | CAct.write _ l _ :: rest => l :: sentLines rest
  | _ :: rest => sentLines rest

/-- The `write` and `read` calls of a trace, in order. -/
def ioCalls (t : List CAct) : List CAct :=
  t.filter (fun a => match a with
    | CAct.write _ _ _ => true
    | CAct.read _ _ => true
    | _ => false)

/-! ## One request and its reply, end to end -/

/-- Bytes at `sendb` that `write(sock, sendb, MAXLEN)` of the client hands to
the transport: the line, its NUL, then `mem`, the memory that follows the
string, up to `MAXLEN` bytes in all. -/
def clientFrame (line mem : List Nat) : List Nat :=
  (line ++ 0 :: mem).take MAXLEN

/-- Result of the handler's `read` when the transport delivers a client
`write` that returned `w` as one read of `w` bytes. -/
def delivered (line mem : List Nat) (w : Int) : Outcome :=
  { ret := w, data := (clientFrame line mem).take w.toNat }

/-- Reply of a handler in state `st` to the line `line`, sent by the client's
`write` of `MAXLEN` bytes that returned `w`. -/
def exchange (st : Srv) (line mem : List Nat) (w : Int) : List (List Nat) :=
  replies (step st (delivered line mem w)).2

/-! ## Server: facts about the handler -/

theorem cstr_append_nul (s rest : List Nat) (h : ∀ b ∈ s, b ≠ 0) :
    cstr (s ++ 0 :: rest) = s := by
  induction s with
  | nil => simp [cstr]
  | cons a t ih =>
    have ha : a ≠ 0 := h a (by simp)
    have ht : ∀ b ∈ t, b ≠ 0 := fun b hb => h b (by simp [hb])
    have := ih ht
    simp only [cstr] at this ⊢
    have hb : (a != 0) = true := by simpa using ha
    simp [List.takeWhile, hb, this]

theorem cstr_sprintf_ok (buf : List Nat) : cstr (sprintf buf (bytesOf "ok")) = bytesOf "ok" := by
  unfold sprintf
  exact cstr_append_nul _ _ (by decide)

theorem cstr_sprintf_noname (buf : List Nat) :
    cstr (sprintf buf (bytesOf "noname")) = bytesOf "noname" := by
  unfold sprintf
  exact cstr_append_nul _ _ (by decide)

theorem cstr_sprintf_recived (buf : List Nat) (n : Int) (recvb : List Nat) :
    bytesOf "recived: " <+: cstr ((sprintf buf (fmtRecived n recvb)).take MAXLEN) := by
  have h : bytesOf "recived: " = [114, 101, 99, 105, 118, 101, 100, 58, 32] := by decide
  unfold sprintf fmtRecived MAXLEN
  rw [h]
  simp [cstr, List.takeWhile, List.take]

/-- Replies of a concatenated trace. -/
theorem replies_append (a b : List Act) : replies (a ++ b) = replies a ++ replies b := by
  induction a with
  | nil => rfl
  | cons x t ih => cases x <;> simp [replies, ih]

theorem step_replies (st : Srv) (o : Outcome) : ∀ r ∈ replies (step st o).2, ReplyShape r := by
  intro r hr
  unfold step at hr
  cases hl : st.loc <;> rw [hl] at hr <;> simp only at hr
  · unfold onAccept at hr; split at hr <;> simp [replies] at hr
  · unfold onFork at hr; split at hr
    · simp [replies] at hr
    · split at hr <;> simp [replies] at hr
  · unfold onGetnameinfo at hr; split at hr <;> simp [replies] at hr
  · unfold onRead1 at hr; split at hr
    · simp [replies] at hr
    · simp only at hr
      split at hr
      · simp only [replies, List.mem_singleton] at hr
        rw [hr, cstr_sprintf_ok]; exact Or.inl rfl
      · simp only [replies, List.mem_singleton] at hr
        rw [hr, cstr_sprintf_noname]; exact Or.inr (Or.inl rfl)
  · unfold onWriteOk at hr; split at hr <;> simp [replies] at hr
  · unfold onWriteNoname at hr; split at hr <;> simp [replies] at hr
  · unfold onRead2 at hr; split at hr
    · simp [replies] at hr
    · simp only [replies, List.mem_singleton] at hr
      rw [hr]; exact Or.inr (Or.inr (cstr_sprintf_recived _ _ _))
  · unfold onWrite2 at hr; split at hr <;> simp [replies] at hr
  · simp [replies] at hr

theorem run_replies (outs : List Outcome) :
    ∀ st : Srv, ∀ r ∈ replies (run st outs).2, ReplyShape r := by
  induction outs with
  | nil => intro st r hr; simp [run, replies] at hr
  | cons o outs ih =>
    intro st r hr
    unfold run at hr
    split at hr
    · simp [replies] at hr
    · simp only [replies_append, List.mem_append] at hr
      rcases hr with hr | hr
      · exact step_replies st o r hr
      · exact ih _ r hr

/-- A text of the second loop is neither of the tokens of the first. -/
theorem recived_ne_tokens (r : List Nat) (h : bytesOf "recived: " <+: r) :
    r ≠ bytesOf "ok" ∧ r ≠ bytesOf "noname" := by
  constructor
  · intro he
    rw [he] at h
    exact absurd h (by decide)
  · intro he
    rw [he] at h
    exact absurd h (by decide)

/-- The second loop is never left for the first: from its `read`, its `write`
or the point after `runServer`, one transition leads to one of these three
and every reply written starts with "recived: ". -/
theorem step_loop2 (st : Srv) (o : Outcome)
    (hl : st.loc = Loc.read2 ∨ st.loc = Loc.write2 ∨ st.loc = Loc.returned) :
    ((step st o).1.loc = Loc.read2 ∨ (step st o).1.loc = Loc.write2
        ∨ (step st o).1.loc = Loc.returned)
    ∧ ∀ r ∈ replies (step st o).2, bytesOf "recived: " <+: r := by
  rcases hl with hl | hl | hl
  · unfold step
    rw [hl]
    simp only [onRead2]
    split
    · simp [replies]
    · refine ⟨Or.inr (Or.inl rfl), ?_⟩
      intro r hr
      simp only [replies, List.mem_singleton] at hr
      rw [hr]
      exact cstr_sprintf_recived _ _ _
  · unfold step
    rw [hl]
    simp only [onWrite2]
    split <;> simp [replies]
  · unfold step
    rw [hl]
    simp [replies, hl]

theorem run_loop2 (outs : List Outcome) :
    ∀ st : Srv, (st.loc = Loc.read2 ∨ st.loc = Loc.write2 ∨ st.loc = Loc.returned) →
      ((run st outs).1.loc = Loc.read2 ∨ (run st outs).1.loc = Loc.write2
          ∨ (run st outs).1.loc = Loc.returned)
      ∧ ∀ r ∈ replies (run st outs).2, bytesOf "recived: " <+: r := by
  induction outs with
  | nil => intro st hl; simp [run, replies, hl]
  | cons o outs ih =>
    intro st hl
    unfold run
    split
    · simp [replies, hl]
    · have hs := step_loop2 st o hl
      have hr := ih (step st o).1 hs.1
      refine ⟨hr.1, ?_⟩
      intro r hmem
      simp only [replies_append, List.mem_append] at hmem
      rcases hmem with hmem | hmem
      · exact hs.2 r hmem
      · exact hr.2 r hmem

/-! ## Byte order -/

theorem htons_lt (le : Bool) (x : Int) : htons le x < 65536 := by
  unfold htons
  have h : (x % 65536).toNat < 65536 := by omega
  generalize (x % 65536).toNat = u at h ⊢
  cases le
  · simp only [Bool.false_eq_true, if_false]; omega
  · simp only [if_true]; omega

theorem ntohs_htons (le : Bool) (x : Int) : ntohs le (htons le x) = (x % 65536).toNat := by
  unfold ntohs htons
  have h : (x % 65536).toNat < 65536 := by omega
  generalize (x % 65536).toNat = u at h ⊢
  cases le
  · simp only [Bool.false_eq_true, if_false]; omega
  · simp only [if_true]
    have h1 : u % 256 * 256 + u / 256 < 65536 := by omega
    rw [Nat.mod_eq_of_lt h1]
    omega

theorem toInt32_of_port (v : Int) (h1 : 1 ≤ v) (h2 : v ≤ 65535) : toInt32 v = v := by
  unfold toInt32
  norm_num
  omega

theorem saPort_htons (le : Bool) (x : Int) :
    (Int.ofNat (htons le x) % 65536).toNat = htons le x := by
  have := htons_lt le x
  simp only [Int.ofNat_eq_coe]
  omega

/-- Reply of the first loop to a read that returned `n ≥ 1`. -/
theorem replies_read1 (st : Srv) (n : Int) (data : List Nat)
    (hloc : st.loc = Loc.read1) (h1 : 1 ≤ n) :
    replies (step st ⟨n, data⟩).2 = [if n < 16 then bytesOf "ok" else bytesOf "noname"] := by
  have hpos : ¬ n ≤ 0 := by omega
  unfold step
  rw [hloc]
  simp only [onRead1, if_neg hpos]
  by_cases h16 : n < 16
  · simp only [if_pos h16, replies, cstr_sprintf_ok]
  · simp only [if_neg h16, replies, cstr_sprintf_noname]

/-! ## Claims -/

/-- C1: in the first loop of the Connection Handler, for every byte count `n`
of at least 1 returned by the read (so for every `n` with `1 <= n <= 255`,
all a read of `MAXLEN` bytes can return) and every content of the received
bytes, the handler logs the request and writes one reply on the same
connection; read as the NUL-terminated string at the start of the reply
buffer it is "ok" when `n < 16` and "noname" when `n >= 16`, and it is the
same for any other received bytes with the same count. -/
theorem C1_reply_token_by_count (st : Srv) (n : Int) (data : List Nat)
    (hloc : st.loc = Loc.read1) (h1 : 1 ≤ n) :
    (∃ sendb, (step st ⟨n, data⟩).2 =
        [Act.log (Msg.client (cstr (readInto st.recvb data n.toNat))), Act.write st.s sendb]
      ∧ cstr sendb = if n < 16 then bytesOf "ok" else bytesOf "noname")
    ∧ replies (step st ⟨n, data⟩).2 = [if n < 16 then bytesOf "ok" else bytesOf "noname"]
    ∧ ∀ data2, replies (step st ⟨n, data2⟩).2 = replies (step st ⟨n, data⟩).2 := by
  have hpos : ¬ n ≤ 0 := by omega
  unfold step
  rw [hloc]
  simp only [onRead1, if_neg hpos]
  by_cases h16 : n < 16
  · simp only [if_pos h16]
    refine ⟨⟨_, rfl, cstr_sprintf_ok _⟩, ?_, fun _ => rfl⟩
    simp only [replies, cstr_sprintf_ok]
  · simp only [if_neg h16]
    refine ⟨⟨_, rfl, cstr_sprintf_noname _⟩, ?_, fun _ => rfl⟩
    simp only [replies, cstr_sprintf_noname]

/-- Witness of C1: a read of 5 bytes, "hello", by a fresh handler is answered
"ok". -/
theorem C1_reply_token_by_count_witness :
    (handlerInit 4 1).loc = Loc.read1 ∧ (1 : Int) ≤ 5 ∧
    replies (step (handlerInit 4 1) ⟨5, bytesOf "hello"⟩).2
      = [if (5 : Int) < 16 then bytesOf "ok" else bytesOf "noname"] :=
  ⟨rfl, by decide,
    (C1_reply_token_by_count (handlerInit 4 1) 5 (bytesOf "hello") rfl (by decide)).2.1⟩

/-- C3, as stated, fails: after the first read of a fresh handler returned 0
the handler is not closed but waits in the read of the second loop, having
called `read` a second time; and after a failed write of "noname" (a read of
16 bytes, then a write returning -1) it calls `read` again in the first
loop. -/
theorem C3_counterexample :
    (runHandler 4 1 [⟨0, []⟩]).2 = [Act.read 4, Act.log Msg.readErr, Act.read 4]
    ∧ (runHandler 4 1 [⟨0, []⟩]).1.loc = Loc.read2
    ∧ readCount (runHandler 4 1 [⟨16, bytesOf "0123456789abcdef"⟩, ⟨-1, []⟩]).2 = 2
    ∧ (runHandler 4 1 [⟨16, bytesOf "0123456789abcdef"⟩, ⟨-1, []⟩]).1.loc = Loc.read1 := by
  decide

/-- C3, amended: a read that returns a zero or negative count in the first
loop, and a write of "ok" that returns a non-positive count (the handler then
shuts the connection down), end the first loop: the handler goes on to the
read of the second loop and, whatever results follow, never again writes
"ok" or "noname" on that connection (every later reply starts with
"recived: "). A read that returns a zero or negative count in the second
loop is terminal: the handler logs, leaves `runServer` and makes no further
call, so no further read and no further write, whatever results follow. -/
theorem C3_nonpositive_results (st : Srv) (o : Outcome) (outs : List Outcome)
    (h : o.ret ≤ 0) :
    (st.loc = Loc.read1 →
      step st o = ({ st with loc := Loc.read2, byter := o.ret },
        [Act.log Msg.readErr, Act.read st.s])
      ∧ ∀ r ∈ replies (run (step st o).1 outs).2,
          bytesOf "recived: " <+: r ∧ r ≠ bytesOf "ok" ∧ r ≠ bytesOf "noname")
    ∧ (st.loc = Loc.writeOk →
      step st o = ({ st with loc := Loc.read2, bytes := o.ret },
        [Act.log Msg.readErr, Act.shutdown st.s, Act.read st.s])
      ∧ ∀ r ∈ replies (run (step st o).1 outs).2,
          bytesOf "recived: " <+: r ∧ r ≠ bytesOf "ok" ∧ r ≠ bytesOf "noname")
    ∧ (st.loc = Loc.read2 →
      (step st o).1.loc = Loc.returned
      ∧ (step st o).2 = [Act.log Msg.readErr, Act.log Msg.clientClosed]
      ∧ run st (o :: outs) = ((step st o).1, (step st o).2)) := by
  refine ⟨?_, ?_, ?_⟩
  · intro hl
    have hs : step st o = ({ st with loc := Loc.read2, byter := o.ret },
        [Act.log Msg.readErr, Act.read st.s]) := by
      unfold step
      rw [hl]
      simp only [onRead1, if_pos h]
    refine ⟨hs, ?_⟩
    intro r hr
    rw [hs] at hr
    have hp := (run_loop2 outs _ (Or.inl rfl)).2 r hr
    exact ⟨hp, recived_ne_tokens r hp⟩
  · intro hl
    have hs : step st o = ({ st with loc := Loc.read2, bytes := o.ret },
        [Act.log Msg.readErr, Act.shutdown st.s, Act.read st.s]) := by
      unfold step
      rw [hl]
      simp only [onWriteOk, if_pos h]
    refine ⟨hs, ?_⟩
    intro r hr
    rw [hs] at hr
    have hp := (run_loop2 outs _ (Or.inl rfl)).2 r hr
    exact ⟨hp, recived_ne_tokens r hp⟩
  · intro hl
    have hs : step st o = ({ st with loc := Loc.returned, byter := o.ret },
        [Act.log Msg.readErr, Act.log Msg.clientClosed]) := by
      unfold step
      rw [hl]
      simp only [onRead2, if_pos h]
    refine ⟨by rw [hs], by rw [hs], ?_⟩
    have hn : ¬ st.loc = Loc.returned := by
      rw [hl]; decide
    cases outs with
    | nil => simp [run, hn]
    | cons o2 rest => simp [run, hn, hs]

/-- Witness of C3: a fresh handler whose first read returns 0 and whose next
read delivers "hello" replies with a text of the second loop; and a handler
in the read of the second loop whose read returns 0 makes no further call,
with a further result of 5 bytes on offer. -/
theorem C3_nonpositive_results_witness :
    ((0 : Int) ≤ 0)
    ∧ (∀ r ∈ replies (run (step (handlerInit 4 1) ⟨0, []⟩).1 [⟨5, bytesOf "hello"⟩]).2,
        bytesOf "recived: " <+: r ∧ r ≠ bytesOf "ok" ∧ r ≠ bytesOf "noname")
    ∧ (run { handlerInit 4 1 with loc := Loc.read2 } [⟨0, []⟩, ⟨5, bytesOf "hello"⟩]).2
      = [Act.log Msg.readErr, Act.log Msg.clientClosed] := by
  have h1 := ((C3_nonpositive_results (handlerInit 4 1) ⟨0, []⟩ [⟨5, bytesOf "hello"⟩]
    (by decide)).1 rfl).2
  have h := (C3_nonpositive_results { handlerInit 4 1 with loc := Loc.read2 } ⟨0, []⟩
    [⟨5, bytesOf "hello"⟩] (by decide)).2.2 rfl
  exact ⟨by decide, h1, by rw [h.2.2]; exact h.2.1⟩

/-- C5, as stated, fails: the second loop is reached as soon as the first
loop is left (here by a read returning 0), and when the read that ended the
first loop failed with -1 and the next read delivers the 5 bytes "hello",
the handler writes the reply "recived: 5 bytes: hello", which is neither "ok"
nor "noname". -/
theorem C5_counterexample :
    (runHandler 4 1 [⟨0, []⟩]).1.loc = Loc.read2
    ∧ replies (runHandler 4 1 [⟨-1, []⟩, ⟨5, bytesOf "hello"⟩]).2
        = [bytesOf "recived: 5 bytes: hello"]
    ∧ bytesOf "recived: 5 bytes: hello" ≠ bytesOf "ok"
    ∧ bytesOf "recived: 5 bytes: hello" ≠ bytesOf "noname" := by
  decide

/-- C5, amended: the second loop is reachable: a handler whose first read
returns a non-positive count logs and calls the read of the second loop; a
positive read in the second loop is answered with the `MAXLEN` bytes of
`sendb` into which the text "recived: %d bytes: %s" of the count and the
received string was formatted; and for every sequence of read/write outcomes every reply the
handler writes carries "ok", "noname" (first loop) or a text that starts with
"recived: " (second loop). -/
theorem C5_reply_shapes (s c : Int) (outs : List Outcome) :
    (∀ o : Outcome, o.ret ≤ 0 →
      (runHandler s c [o]).1.loc = Loc.read2
      ∧ (runHandler s c [o]).2 = [Act.read s, Act.log Msg.readErr, Act.read s])
    ∧ (∀ (st : Srv) (o : Outcome), st.loc = Loc.read2 → 0 < o.ret →
        (step st o).2 =
          [Act.log (Msg.client (cstr (readInto st.recvb o.data o.ret.toNat))),
           Act.write st.s
             ((sprintf st.sendb
               (fmtRecived o.ret (readInto st.recvb o.data o.ret.toNat))).take MAXLEN)])
    ∧ ∀ r ∈ replies (runHandler s c outs).2,
        r = bytesOf "ok" ∨ r = bytesOf "noname" ∨ bytesOf "recived: " <+: r := by
  refine ⟨?_, ?_, ?_⟩
  · intro o ho
    simp [runHandler, run, handlerInit, step, onRead1, ho]
  · intro st o hl hpos
    have hn : ¬ o.ret ≤ 0 := by omega
    unfold step
    rw [hl]
    simp only [onRead2, if_neg hn]
  · intro r hr
    unfold runHandler at hr
    simp only [replies] at hr
    exact run_replies outs _ r hr

/-- Witness of C5: the reply to a 5-byte read in the second loop. -/
theorem C5_reply_shapes_witness :
    bytesOf "recived: 5 bytes: hello"
        ∈ replies (runHandler 4 1 [⟨-1, []⟩, ⟨5, bytesOf "hello"⟩]).2
    ∧ (bytesOf "recived: 5 bytes: hello" = bytesOf "ok"
        ∨ bytesOf "recived: 5 bytes: hello" = bytesOf "noname"
        ∨ bytesOf "recived: " <+: bytesOf "recived: 5 bytes: hello") :=
  ⟨by decide,
    (C5_reply_shapes 4 1 [⟨-1, []⟩, ⟨5, bytesOf "hello"⟩]).2.2 _ (by decide)⟩

/-- C6, at its failing input: a handler whose read returns 0 in the first
loop and again in the second loop leaves `runServer` having called `read`
twice and logged, and never calls `shutdown`. -/
theorem C6_no_shutdown_on_read_path :
    (runHandler 4 1 [⟨0, []⟩, ⟨0, []⟩]).2
      = [Act.read 4, Act.log Msg.readErr, Act.read 4, Act.log Msg.readErr,
          Act.log Msg.clientClosed]
    ∧ (runHandler 4 1 [⟨0, []⟩, ⟨0, []⟩]).1.loc = Loc.returned
    ∧ hasShutdown (runHandler 4 1 [⟨0, []⟩, ⟨0, []⟩]).2 = false := by
  decide

/-- C10, at its failing input: `accept` returns descriptor 4, `fork` returns
0 and `getnameinfo` fails with -3; the child has closed the listening
descriptor, logs, shuts the connection down and calls `accept` again, where
it waits; when that `accept` fails it calls `accept` once more. -/
theorem C10_child_returns_to_accept :
    (runServer [⟨4, []⟩, ⟨0, []⟩, ⟨-3, []⟩]).2
      = [Act.accept, Act.fork, Act.closeListen, Act.getnameinfo,
          Act.log Msg.getnameinfoErr, Act.shutdown 4, Act.accept]
    ∧ (runServer [⟨4, []⟩, ⟨0, []⟩, ⟨-3, []⟩]).1.loc = Loc.accept
    ∧ acceptCount (runServer [⟨4, []⟩, ⟨0, []⟩, ⟨-3, []⟩, ⟨-1, []⟩]).2 = 3
    ∧ (runServer [⟨4, []⟩, ⟨0, []⟩, ⟨-3, []⟩, ⟨-1, []⟩]).1.loc = Loc.accept := by
  decide

/-! ## Client session -/

theorem sentLines_clientLoop_initial (sock : Int) (io : Nat → Outcome) (lines : List (List Nat)) :
    ∀ (k : Nat) (recvb : List Nat),
      sentLines (clientLoop sock io lines k recvb) <+: lines.takeWhile notDot := by
  induction lines with
  | nil => intro k recvb; simp [clientLoop, sentLines]
  | cons l ls ih =>
    intro k recvb
    unfold clientLoop
    by_cases hd : notDot l = true
    · simp only [hd, if_true, List.takeWhile_cons]
      by_cases hw : (io k).ret ≤ 0
      · simp only [if_pos hw, sentLines]
        exact List.prefix_iff_eq_append.mpr (by simp)
      · simp only [if_neg hw]
        by_cases hr : (io (k + 1)).ret ≤ 0
        · simp only [if_pos hr, sentLines]
          exact List.prefix_iff_eq_append.mpr (by simp)
        · simp only [if_neg hr, List.cons_append, List.nil_append, sentLines]
          exact (List.prefix_cons_inj l).mpr (ih _ _)
    · simp [hd, sentLines]

theorem ioCalls_clientLoop (sock : Int) (io : Nat → Outcome) (hio : ∀ k, 0 < (io k).ret)
    (lines : List (List Nat)) :
    ∀ (k : Nat) (recvb : List Nat),
      ioCalls (clientLoop sock io lines k recvb)
        = (lines.takeWhile notDot).flatMap
            (fun l => [CAct.write sock l MAXLEN, CAct.read sock 255]) := by
  induction lines with
  | nil => intro k recvb; simp [clientLoop, ioCalls]
  | cons l ls ih =>
    intro k recvb
    unfold clientLoop
    have hw : ¬ (io k).ret ≤ 0 := by have := hio k; omega
    have hr : ¬ (io (k + 1)).ret ≤ 0 := by have := hio (k + 1); omega
    by_cases hd : notDot l = true
    · simp only [hd, if_true, if_neg hw, if_neg hr, List.takeWhile_cons, List.flatMap_cons]
      have := ih (k + 2) (readInto recvb (io (k + 1)).data (io (k + 1)).ret.toNat)
      unfold ioCalls at this ⊢
      simp only [List.filter_append, this]
      simp [List.filter]
    · simp [hd, ioCalls]

theorem cstr_of_no_nul (l : List Nat) (h : 0 ∉ l) : cstr l = l := by
  unfold cstr
  rw [List.takeWhile_eq_self_iff]
  intro x hx
  have : x ≠ 0 := fun he => h (he ▸ hx)
  simpa using this

theorem notDot_of_no_nul (l : List Nat) (h : 0 ∉ l) : notDot l = decide (l ≠ [46]) := by
  have hd : bytesOf "." = [46] := by decide
  unfold notDot
  rw [cstr_of_no_nul l h, hd]
  by_cases he : l = [46] <;> simp [he]

theorem takeWhile_notDot (lines : List (List Nat)) (h : ∀ l ∈ lines, 0 ∉ l) :
    lines.takeWhile notDot = lines.takeWhile (fun l => decide (l ≠ [46])) := by
  induction lines with
  | nil => rfl
  | cons l ls ih =>
    have hl := notDot_of_no_nul l (h l (by simp))
    have hls := ih (fun x hx => h x (by simp [hx]))
    simp only [List.takeWhile_cons, hl, hls]

/-- C4: for every sequence of operator input lines (C strings, so without a
NUL byte) and every result of the session's writes and reads, the buffers
`runClient` writes form an initial part of the lines that precede the first
line equal to "." (the single byte 46) or the end of input, so the line "."
is never written and no later line is; and when every write and read
succeeds, the writes and reads of the session are exactly, for each of those
lines in order, one write of the line followed by one read of a reply. -/
theorem C4_session_stops_at_dot (sock : Int) (lines : List (List Nat)) (io : Nat → Outcome)
    (hnul : ∀ l ∈ lines, 0 ∉ l) :
    sentLines (runClient sock lines io) <+: lines.takeWhile (fun l => decide (l ≠ [46]))
    ∧ [46] ∉ sentLines (runClient sock lines io)
    ∧ ((∀ k, 0 < (io k).ret) →
        ioCalls (runClient sock lines io)
          = (lines.takeWhile (fun l => decide (l ≠ [46]))).flatMap
              (fun l => [CAct.write sock l 255, CAct.read sock 255])) := by
  have hpre : sentLines (runClient sock lines io)
      <+: lines.takeWhile (fun l => decide (l ≠ [46])) := by
    rw [← takeWhile_notDot lines hnul]
    unfold runClient
    simp only [sentLines]
    exact sentLines_clientLoop_initial sock io lines 0 zeroBuf
  refine ⟨hpre, ?_, ?_⟩
  · intro hmem
    have := List.mem_takeWhile_imp (hpre.subset hmem)
    simp at this
  · intro hio
    have := ioCalls_clientLoop sock io hio lines 0 zeroBuf
    rw [← takeWhile_notDot lines hnul]
    unfold runClient
    unfold ioCalls at this ⊢
    simp only [List.filter_cons, this]
    simp [MAXLEN]

/-- Witness of C4: the lines "hello", ".", "later" with every write and read
returning 255: the session writes "hello" with count 255, reads once, and
writes neither "." nor "later". -/
theorem C4_session_stops_at_dot_witness :
    (∀ l ∈ [[104, 101, 108, 108, 111], [46], [108, 97, 116, 101, 114]], 0 ∉ l)
    ∧ (∀ k : Nat, 0 < ((fun _ => (⟨255, [110, 111, 0]⟩ : Outcome)) k).ret)
    ∧ [46] ∉ sentLines (runClient 3 [[104, 101, 108, 108, 111], [46], [108, 97, 116, 101, 114]]
        (fun _ => ⟨255, [110, 111, 0]⟩))
    ∧ ioCalls (runClient 3 [[104, 101, 108, 108, 111], [46], [108, 97, 116, 101, 114]]
        (fun _ => ⟨255, [110, 111, 0]⟩))
      = [CAct.write 3 [104, 101, 108, 108, 111] 255, CAct.read 3 255] := by
  have hn : ∀ l ∈ [[104, 101, 108, 108, 111], [46], [108, 97, 116, 101, 114]], 0 ∉ l := by
    decide
  have h := C4_session_stops_at_dot 3 [[104, 101, 108, 108, 111], [46], [108, 97, 116, 101, 114]]
    (fun _ => ⟨255, [110, 111, 0]⟩) hn
  refine ⟨hn, fun _ => (by decide : (0 : Int) < 255), h.2.1, ?_⟩
  rw [h.2.2 (fun _ => (by decide : (0 : Int) < 255))]
  decide

set_option maxRecDepth 100000 in
/-- C2, as stated, fails: for the 5-byte line "hello" the client calls
`write` with count `MAXLEN` = 255; when the transport delivers the 255 bytes
written as one read of 255 bytes, a fresh handler replies "noname", not
"ok". -/
theorem C2_counterexample :
    (bytesOf "hello").length = 5
    ∧ ioCalls (runClient 3 [bytesOf "hello"] (fun _ => ⟨255, []⟩))
        = [CAct.write 3 (bytesOf "hello") 255, CAct.read 3 255]
    ∧ (delivered (bytesOf "hello") (List.replicate 249 0) 255).data.length = 255
    ∧ exchange (handlerInit 4 1) (bytesOf "hello") (List.replicate 249 0) 255
        = [bytesOf "noname"]
    ∧ bytesOf "noname" ≠ bytesOf "ok" := by
  refine ⟨by decide, by decide, by decide, by decide, by decide⟩

/-- C2, amended: for every operator line other than "." the client calls
`write` with count `MAXLEN` whatever the line's length; when the transport
delivers the `w` bytes that write transferred (`1 <= w <= 255`) as one read
of `w` bytes, a handler in its first loop replies "ok" if `w < 16` and
"noname" otherwise, whatever the line; for a write of the whole frame
(`w = 255`) the reply is "noname" for every line. -/
theorem C2_reply_by_written_count (st : Srv) (line mem : List Nat) (w : Int)
    (hloc : st.loc = Loc.read1) (h1 : 1 ≤ w) (hdot : notDot line = true) :
    (∀ (sock : Int) (io : Nat → Outcome) (ls : List (List Nat)) (k : Nat) (recvb : List Nat),
        (clientLoop sock io (line :: ls) k recvb).take 2
          = [CAct.getLine, CAct.write sock line MAXLEN])
    ∧ exchange st line mem w = [if w < 16 then bytesOf "ok" else bytesOf "noname"]
    ∧ exchange st line mem MAXLEN = [bytesOf "noname"] := by
  refine ⟨?_, ?_, ?_⟩
  · intro sock io ls k recvb
    unfold clientLoop
    simp only [hdot, if_true]
    split
    · rfl
    · split <;> rfl
  · exact replies_read1 st w _ hloc h1
  · have := replies_read1 st (MAXLEN : Nat) (delivered line mem MAXLEN).data hloc (by decide)
    simpa [exchange, delivered, MAXLEN] using this

/-- Witness of C2: the line "hello" written in full (255 bytes) to a fresh
handler is answered "noname". -/
theorem C2_reply_by_written_count_witness :
    ((handlerInit 4 1).loc = Loc.read1 ∧ (1 : Int) ≤ 255 ∧ notDot (bytesOf "hello") = true)
    ∧ exchange (handlerInit 4 1) (bytesOf "hello") (List.replicate 249 0) MAXLEN
        = [bytesOf "noname"] :=
  ⟨⟨rfl, by decide, by decide⟩,
    (C2_reply_by_written_count (handlerInit 4 1) (bytesOf "hello") (List.replicate 249 0) 255
      rfl (by decide) (by decide)).2.2⟩

/-! ## Command line and connection set-up -/

/-- C7, at its failing inputs: whatever options precede, a client command
line with no positional argument, or with two or more, prints usage and
exits with code 0 (`EX_OK`), which is not the code 1 (`EX_ARGFALL`). -/
theorem C7_bad_arguments_exit_zero (opts : List (Char × List Nat)) (e : ClientEnv) :
    (clientMain opts [] e).2 = 0
    ∧ (∀ a b rest, (clientMain opts (a :: b :: rest) e).2 = 0)
    ∧ clientMain [] [] e = ([CAct.msg CMsg.missingHost, CAct.msg CMsg.usage], 0)
    ∧ EX_ARGFALL = 1 := by
  refine ⟨?_, ?_, rfl, rfl⟩
  · unfold clientMain
    cases parseOpts (bytesOf "9000") opts <;> rfl
  · intro a b rest
    unfold clientMain
    cases parseOpts (bytesOf "9000") opts <;> rfl

/-- C9, at its failing input: for a single `AF_INET6` candidate whose
`socket` call fails with `EAFNOSUPPORT`, `initClient` logs and then calls
`connect` (and `shutdown`) on the descriptor -1 before it takes the fatal
exit. -/
theorem C9_connect_without_socket :
    initClient 0
        [{ addr := 0, family := AF_INET6, nameinfo := 0, sock := -1,
           errno := EAFNOSUPPORT, conn := -1 }]
      = ([CAct.getnameinfo 0, CAct.msg CMsg.trying, CAct.socket 0, CAct.msg CMsg.noIPv6,
          CAct.connect (-1) 0, CAct.msg CMsg.connectErr, CAct.shutdown (-1),
          CAct.msg CMsg.couldNotConnect], Except.error EX_ARGFALL) := by
  rfl

/-- C8, as stated, fails: for the port string "65536" (`strtol` returns
65536 and consumes the string; no service has that name) `initServer` does
not fail: it binds port 0 and returns; for "74536" it binds port 9000, not
74536. -/
theorem C8_counterexample :
    initServer
        { callocOk := true, proto := some 6, strtolVal := 65536, epNul := true,
          serv := none, le := true, sock6 := 3, errno6 := 0, sock4 := 0, setsockopt := 0,
          bind := 0, listen := 0 }
      = ([IAct.socket AF_INET6, IAct.setsockopt 3, IAct.bind 3 AF_INET6 0, IAct.listen 3],
          Except.ok { sock := 3, port_number := 0 })
    ∧ boundPorts true (initServer
        { callocOk := true, proto := some 6, strtolVal := 74536, epNul := true,
          serv := none, le := true, sock6 := 3, errno6 := 0, sock4 := 0, setsockopt := 0,
          bind := 0, listen := 0 }).1 = [9000] := by
  exact ⟨rfl, rfl⟩

theorem mem_bindListen (e : InitEnv) (pre : List IAct) (sock : Int) (port : Int)
    (family saPort : Nat) (sock2 : Int) (fam2 p2 : Nat)
    (hpre : ∀ s f q, IAct.bind s f q ∉ pre)
    (h : IAct.bind sock2 fam2 p2 ∈ (bindListen e pre sock port family saPort).1) :
    sock2 = sock ∧ p2 = saPort := by
  unfold bindListen at h
  split at h
  · simp only [List.mem_append, List.mem_cons, List.mem_singleton, IAct.bind.injEq] at h
    rcases h with h | h | h
    · exact absurd h (hpre _ _ _)
    · exact ⟨h.1, h.2.2⟩
    · simp at h
  · split at h <;>
    · simp only [List.mem_append, List.mem_cons, List.mem_singleton, IAct.bind.injEq] at h
      rcases h with h | h | h
      · exact absurd h (hpre _ _ _)
      · exact ⟨h.1, h.2.2⟩
      · simp at h

theorem bind_port_of_initServer (e : InitEnv) (hpos : 0 < toInt32 e.strtolVal)
    (hep : e.epNul = true) (sock : Int) (fam p : Nat)
    (hmem : IAct.bind sock fam p ∈ (initServer e).1) (hsock : 0 ≤ sock) :
    p = htons e.le (toInt32 e.strtolVal) := by
  have hres : resolvePort e = Except.ok (Int.ofNat (htons e.le (toInt32 e.strtolVal))) := by
    simp [resolvePort, hpos, hep]
  unfold initServer at hmem
  rw [hres] at hmem
  simp only [saPort_htons] at hmem
  split at hmem
  · simp at hmem
  · split at hmem
    · simp at hmem
    · split at hmem
      · split at hmem
        · split at hmem
          · simp at hmem
          · exact (mem_bindListen _ _ _ _ _ _ _ _ _ (by simp) hmem).2
        · rename_i h6 _
          have := (mem_bindListen _ _ _ _ _ _ _ _ _ (by simp) hmem).1
          omega
      · split at hmem
        · simp at hmem
        · exact (mem_bindListen _ _ _ _ _ _ _ _ _ (by simp) hmem).2

/-- C8, amended: `initServer` accepts a numeric port string whenever `strtol`
consumes the whole string and its value, as an `int`, is positive, with no
upper bound; the port then stored, and given to every `bind` on a created
socket, is the htons of that value: in network byte order it denotes the
value modulo 65536, which is the number written when that lies in 1..65535.
A string that does not parse so and is not a known service name makes
`initServer` fail with exit code 1 without any `bind`. -/
theorem C8_numeric_port (e : InitEnv) :
    (0 < toInt32 e.strtolVal → e.epNul = true →
      resolvePort e = Except.ok (Int.ofNat (htons e.le (toInt32 e.strtolVal)))
      ∧ ∀ sock fam p, IAct.bind sock fam p ∈ (initServer e).1 → 0 ≤ sock →
          ntohs e.le p = (toInt32 e.strtolVal % 65536).toNat)
    ∧ (1 ≤ e.strtolVal → e.strtolVal ≤ 65535 → e.epNul = true →
        ∀ sock fam p, IAct.bind sock fam p ∈ (initServer e).1 → 0 ≤ sock →
          ntohs e.le p = e.strtolVal.toNat)
    ∧ (¬ (0 < toInt32 e.strtolVal ∧ e.epNul = true) → e.serv = none →
        e.callocOk = true →
          (initServer e).2 = Except.error EX_ARGFALL ∧ boundPorts e.le (initServer e).1 = []) := by
  refine ⟨?_, ?_, ?_⟩
  · intro hpos hep
    refine ⟨by simp [resolvePort, hpos, hep], ?_⟩
    intro sock fam p hmem hsock
    rw [bind_port_of_initServer e hpos hep sock fam p hmem hsock, ntohs_htons]
  · intro h1 h2 hep sock fam p hmem hsock
    have ht := toInt32_of_port e.strtolVal h1 h2
    have hpos : 0 < toInt32 e.strtolVal := by omega
    rw [bind_port_of_initServer e hpos hep sock fam p hmem hsock, ntohs_htons, ht]
    congr 1
    omega
  · intro hnot hserv hcal
    have hres : resolvePort e = Except.error EX_ARGFALL := by
      unfold resolvePort
      simp only [gt_iff_lt, if_neg hnot, hserv]
    unfold initServer
    rw [hres]
    simp only [hcal]
    by_cases hp : e.proto = none
    · simp [hp, boundPorts]
    · simp [hp, boundPorts]

/-- Witness of C8: the port string "9000" on a little-endian host with IPv6:
the port bound is 9000. -/
theorem C8_numeric_port_witness :
    ((1 : Int) ≤ 9000 ∧ (9000 : Int) ≤ 65535)
    ∧ ntohs true 10275 = (9000 : Int).toNat :=
  ⟨by decide,
    (C8_numeric_port
        { callocOk := true, proto := some 6, strtolVal := 9000, epNul := true,
          serv := none, le := true, sock6 := 3, errno6 := 0, sock4 := 0, setsockopt := 0,
          bind := 0, listen := 0 }).2.1 (by decide) (by decide) rfl 3 AF_INET6 10275
      (by decide) (by decide)⟩

end EchoService
